import Mathlib

/-!
Shallow embedding of the WhatsApp bulk-messaging server (`src/server.js`):
the phone-number formatter, the inline media-resolution checks, the two
dispatch endpoints (`POST /send-single-media`, `POST /send-bulk-messages`),
and the session teardown (`destroyClient` / `clearWhatsAppFolders`).

External effects (registration queries, the file system, message sends)
are modelled as oracle functions collected in a `World`; every handler
additionally returns the trace of external calls it performed, so that
"no send was attempted" style properties are statable.
-/

set_option autoImplicit false

/-- Boolean string-prefix test (`s.startsWith(p)` of the source), computed on
the underlying character lists so that it reduces in the kernel. -/
def strStartsWith (s p : String) : Bool :=
  p.data.isPrefixOf s.data

/-- `number.toString().replace(/\D/g, '')`: keep only the decimal digits. -/
def stripNonDigits (s : String) : String :=
  String.mk (s.data.filter Char.isDigit)

/-- `phone.substring(1)`: drop the first character. -/
def strDropOne (s : String) : String :=
  String.mk (s.data.drop 1)

/-- `formatPhoneNumber(number, countryCode)` of `server.js` (lines 252-272):
strip non-digits; for `'SA'` drop one leading `0` and then prepend `966`
unless the string already starts with `966`; for `'20'` prepend `20` unless
already present; any other country code passes the digits through. -/
def formatPhoneNumber (number countryCode : String) : String :=
  let phone := stripNonDigits number
  if countryCode = "SA" then
    let phone1 := if strStartsWith phone "0" then strDropOne phone else phone
    if strStartsWith phone1 "966" then phone1 else "966" ++ phone1
  else if countryCode = "20" then
    if strStartsWith phone "20" then phone else "20" ++ phone
  else phone

/-- Spec-side definition, written from the wording of claim C7 (spec §4.2):
"drop a single leading zero". Used only for the refinement comparison with
`formatPhoneNumber`. -/
def dropLeadingZero (s : String) : String :=
  if strStartsWith s "0" then strDropOne s else s

/-- Spec-side definition, written from the wording of claim C7 (spec §4.2):
"prepend the country calling code unless already present". -/
def prependUnlessPrefix (code s : String) : String :=
  if strStartsWith s code then s else code ++ s

/-- Spec-side definition of the normalizer, assembled from the wording of
claim C7: strip non-digits, then apply the per-country rule. Compared
against the source's `formatPhoneNumber` in the C7 theorem. -/
def specNormalize (rawNumber countryHint : String) : String :=
  let digits := stripNonDigits rawNumber
  if countryHint = "SA" then prependUnlessPrefix "966" (dropLeadingZero digits)
  else if countryHint = "20" then prependUnlessPrefix "20" digits
  else digits

/-- `` `${formattedNumber}@c.us` ``: the chat identifier built from the
formatted number. -/
def chatIdOf (number countryCode : String) : String :=
  formatPhoneNumber number countryCode ++ "@c.us"

/-- JS `formattedNumber || number`: the formatted number unless it is the
empty string (falsy), in which case the raw input (bulk handler, line 418). -/
def jsStringOr (a b : String) : String :=
  if a = "" then b else a

/-- Error message thrown for an unregistered number (lines 296 / 366). -/
def msgNotRegistered : String := "رقم غير مسجل في واتساب"

/-- Error message thrown for a missing media file (lines 301 / 381). -/
def msgMediaNotFound : String := "ملف الوسائط غير موجود"

/-- Error message thrown for an undeterminable MIME type (lines 306 / 386). -/
def msgUnsupported : String := "نوع الملف غير مدعوم"

/-- Error message thrown for an oversized file (lines 311 / 391). -/
def msgTooLarge : String := "حجم الملف كبير جداً. الحد الأقصى هو 16 ميجابايت"

/-- The wrapped reason thrown by the inner media `catch` of the bulk handler
(line 409): `` `فشل في إرسال الوسائط: ${mediaError.message}` ``. -/
def wrapMediaFailure (e : String) : String :=
  "فشل في إرسال الوسائط: " ++ e

/-- 400 response body when `client` is falsy (lines 280 / 349). -/
def msgNoClient : String := "WhatsApp client not initialized"

/-- 400 response body for a missing/empty numbers array (lines 284 / 353). -/
def msgBadNumbers : String := "يجب توفير قائمة صالحة من الأرقام"

/-- Model of the file system as seen through `fs.existsSync`, `mime.lookup`
and `fs.statSync(...).size`, keyed by the media path reference (the
`path.join(process.cwd(), mediaPath)` resolution is a fixed injective
renaming and is absorbed into the key). -/
structure FsModel where
  fexists : String → Bool
  fmime : String → Option String
  fsize : String → Nat

/-- The inline media-resolution check sequence that appears identically in
both handlers (lines 299-312 and 378-392): `existsSync`, then `mime.lookup`,
then the 16 MiB size bound, in that order; on success it yields the MIME
type used to build the `MessageMedia` payload. -/
def resolveMedia (fs : FsModel) (mediaPath : String) : Except String String :=
  if fs.fexists mediaPath then
    match fs.fmime mediaPath with
    | none => .error msgUnsupported
    | some mimeType =>
      if fs.fsize mediaPath > 16 * 1024 * 1024 then .error msgTooLarge
      else .ok mimeType
  else .error msgMediaNotFound

/-- Observable external calls made by the handlers: the registration query,
a text-message send, a full file read (`fs.readFileSync`), and a media send
with its `sendMediaAsDocument` flag. -/
inductive Event where
  | regCheck (chatId : String)
  | sendText (chatId : String) (msg : String)
  | readFile (p : String)
  | sendMedia (chatId : String) (p : String) (asDocument : Bool)
deriving DecidableEq

/-- One element of the bulk request's `mediaFiles` array: `{path, caption}`. -/
structure MediaItem where
  path : String
  caption : String
deriving DecidableEq

/-- One element of `results.failed`: `{number, reason}`. -/
structure FailedEntry where
  number : String
  reason : String
deriving DecidableEq

/-- The `results` object of both handlers: `{success: [], failed: []}`. -/
structure DispatchResults where
  success : List String
  failed : List FailedEntry
deriving DecidableEq

/-- HTTP outcome of a dispatch endpoint: a 400 precondition rejection, a 200
with the results object, or a 500 from an error escaping the recipient loop
(the response carries no results object in that case). Each non-400 outcome
also carries the trace of external calls performed. -/
inductive HandlerResult where
  | badRequest (error : String)
  | ok (results : DispatchResults) (trace : List Event)
  | serverError (trace : List Event)
deriving DecidableEq

/-- The trace of external calls performed by a handler outcome. -/
def traceOf : HandlerResult → List Event
  | .badRequest _ => []
  | .ok _ t => t
  | .serverError t => t

/-- The process-wide mutable context the handlers read, together with the
oracles for the external collaborators: whether the `client` global is set,
the `connectionStatus` global, `client.isRegisteredUser`, the file system,
and the outcomes of `client.sendMessage` for text and media payloads
(`none` = the send resolves, `some r` = it rejects with reason `r`). -/
structure World where
  clientPresent : Bool
  connectionStatus : String
  isRegisteredUser : String → Bool
  fs : FsModel
  sendTextResult : String → String → Option String
  sendMediaResult : String → String → Option String

/-- Outcome of one iteration of the `for` loop in `POST /send-single-media`.
The loop body's `catch` block (lines 328-333) reads `formattedNumber`, a
`const` declared inside the `try` block and therefore not in scope in the
`catch`; evaluating it raises a `ReferenceError` that escapes the loop, so
every caught per-recipient error becomes `refError`. -/
inductive SingleStep where
  | success (canonical : String)
  | refError
deriving DecidableEq

/-- One iteration of the recipient loop of `POST /send-single-media`
(lines 289-334): format the number, query registration, run the media
checks, read the file and send it with `sendMediaAsDocument` set for video
MIME types. Any thrown error reaches the broken `catch` block and turns
into an escaping `ReferenceError` (`refError`). -/
def processSingleRecipient (w : World) (mediaPath country number : String) :
    SingleStep × List Event :=
  let formattedNumber := formatPhoneNumber number country
  let chatId := formattedNumber ++ "@c.us"
  if w.isRegisteredUser chatId then
    match resolveMedia w.fs mediaPath with
    | .error _ => (.refError, [.regCheck chatId])
    | .ok mimeType =>
      let evs := [Event.regCheck chatId, Event.readFile mediaPath,
                  Event.sendMedia chatId mediaPath (strStartsWith mimeType "video/")]
      match w.sendMediaResult chatId mediaPath with
      | some _ => (.refError, evs)
      | none => (.success formattedNumber, evs)
  else (.refError, [.regCheck chatId])

/-- The recipient loop of `POST /send-single-media`: successes are pushed in
input order; a `refError` escapes the loop, discards the results object and
produces the 500 response. -/
def sendSingleGo (w : World) (mediaPath country : String) :
    List String → DispatchResults → List Event → HandlerResult
  | [], acc, trace => .ok acc trace
  | number :: rest, acc, trace =>
    match processSingleRecipient w mediaPath country number with
    | (.success c, evs) =>
      sendSingleGo w mediaPath country rest ⟨acc.success ++ [c], acc.failed⟩ (trace ++ evs)
    | (.refError, evs) => .serverError (trace ++ evs)

/-- `POST /send-single-media` (lines 275-341): reject when `client` is unset
or the numbers array is empty, otherwise run the recipient loop. The
`caption` only decorates the payload and has no control-flow effect. -/
def sendSingleMedia (w : World) (numbers : List String)
    (mediaPath caption country : String) : HandlerResult :=
  if !w.clientPresent then .badRequest msgNoClient
  else if numbers.isEmpty then .badRequest msgBadNumbers
  else sendSingleGo w mediaPath country numbers ⟨[], []⟩ []

/-- The text-message phase of one bulk recipient (lines 369-372): JS
truthiness means an absent or empty `message` is skipped; otherwise the
text send runs and may reject with a reason. -/
def textPhase (w : World) (chatId : String) (message : Option String) :
    Option String × List Event :=
  match message with
  | none => (none, [])
  | some m => if m = "" then (none, []) else (w.sendTextResult chatId m, [.sendText chatId m])

/-- One iteration of the media loop of `POST /send-bulk-messages`
(lines 376-410): the resolution checks, then the file read and the send
with the video-as-document rule. The first component is the failure reason
before wrapping (`none` = the item succeeded). -/
def processMediaItem (w : World) (chatId : String) (it : MediaItem) :
    Option String × List Event :=
  match resolveMedia w.fs it.path with
  | .error e => (some e, [])
  | .ok mimeType =>
    (w.sendMediaResult chatId it.path,
     [Event.readFile it.path, Event.sendMedia chatId it.path (strStartsWith mimeType "video/")])

/-- The media loop of one bulk recipient: on the first failing item the
inner `catch` (lines 407-410) rethrows the wrapped reason, which escapes
the loop, so the remaining items are not attempted. -/
def processMediaList (w : World) (chatId : String) :
    List MediaItem → Option String × List Event
  | [] => (none, [])
  | it :: rest =>
    match processMediaItem w chatId it with
    | (some e, evs) => (some (wrapMediaFailure e), evs)
    | (none, evs) =>
      let (r, evs2) := processMediaList w chatId rest
      (r, evs ++ evs2)

/-- One iteration of the recipient loop of `POST /send-bulk-messages`
(lines 358-422). Here `formattedNumber` is a `let` hoisted above the `try`,
so the `catch` block can record the failure: the outcome is either the
canonical number pushed to `success` or a `FailedEntry` whose number is
`formattedNumber || number`. -/
def processBulkRecipient (w : World) (message : Option String)
    (mediaFiles : Option (List MediaItem)) (country number : String) :
    (String ⊕ FailedEntry) × List Event :=
  let formattedNumber := formatPhoneNumber number country
  let recorded := jsStringOr formattedNumber number
  let chatId := formattedNumber ++ "@c.us"
  if w.isRegisteredUser chatId then
    match textPhase w chatId message with
    | (some r, tevs) => (.inr ⟨recorded, r⟩, Event.regCheck chatId :: tevs)
    | (none, tevs) =>
      match mediaFiles with
      | some l =>
        if l.isEmpty then (.inl formattedNumber, Event.regCheck chatId :: tevs)
        else
          match processMediaList w chatId l with
          | (some r, mevs) => (.inr ⟨recorded, r⟩, Event.regCheck chatId :: (tevs ++ mevs))
          | (none, mevs) => (.inl formattedNumber, Event.regCheck chatId :: (tevs ++ mevs))
      | none => (.inl formattedNumber, Event.regCheck chatId :: tevs)
  else (.inr ⟨recorded, msgNotRegistered⟩, [Event.regCheck chatId])

/-- The recipient loop of `POST /send-bulk-messages`: every recipient is
processed; `success` and `failed` each keep input order. -/
def sendBulkGo (w : World) (message : Option String)
    (mediaFiles : Option (List MediaItem)) (country : String) :
    List String → DispatchResults × List Event
  | [] => (⟨[], []⟩, [])
  | number :: rest =>
    let (o, evs) := processBulkRecipient w message mediaFiles country number
    let (acc, trace) := sendBulkGo w message mediaFiles country rest
    match o with
    | .inl c => (⟨c :: acc.success, acc.failed⟩, evs ++ trace)
    | .inr f => (⟨acc.success, f :: acc.failed⟩, evs ++ trace)

/-- `POST /send-bulk-messages` (lines 344-429): reject when `client` is
unset or the numbers array is empty, otherwise run the recipient loop to
completion and answer 200 with the results object. -/
def sendBulkMessages (w : World) (numbers : List String) (message : Option String)
    (mediaFiles : Option (List MediaItem)) (country : String) : HandlerResult :=
  if !w.clientPresent then .badRequest msgNoClient
  else if numbers.isEmpty then .badRequest msgBadNumbers
  else
    let (res, trace) := sendBulkGo w message mediaFiles country numbers
    .ok res trace

/-- Does an event read or send the file at path `q`? -/
def touchesPath (q : String) : Event → Bool
  | .readFile p => p = q
  | .sendMedia _ p _ => p = q
  | _ => false

/-! ### Session teardown (`destroyClient`, `clearWhatsAppFolders`) -/

/-- The session globals mutated by `destroyClient` (lines 110-112). -/
structure SessionState where
  clientPresent : Bool
  connectionStatus : String
  qrCodeData : Option String
deriving DecidableEq

/-- Observable teardown actions: a `connectionStatus` assignment, the
`client.destroy()` call (`ok` = it resolved), and one `fs.rmSync` attempt on
a folder (`ok` = the deletion succeeded). -/
inductive DAct where
  | setStatus (s : String)
  | clientDestroy (ok : Bool)
  | rmAttempt (folder : String) (ok : Bool)
deriving DecidableEq

/-- The fixed folder list of `clearWhatsAppFolders` (lines 116-120). -/
def foldersToDelete : List String :=
  ["uploads", ".wwebjs_auth", ".wwebjs_cache"]

/-- `clearWhatsAppFolders()` (lines 115-132): for each folder in the fixed
list, if it exists, attempt `fs.rmSync`, logging and swallowing a failure;
the iteration never stops early. `fexists` says which folders exist and
`rmFails` which deletions throw. -/
def clearWhatsAppFolders (fexists rmFails : String → Bool) : List DAct :=
  foldersToDelete.filterMap fun f =>
    if fexists f then some (.rmAttempt f (!rmFails f)) else none

/-- `destroyClient()` (lines 134-147): set `disconnecting`; if a client
handle exists call `client.destroy()`, and only when that call resolves set
`client = null` (the assignment is inside the `try`, after the `await`, so
a throwing shutdown leaves the handle in place); then set `disconnected`,
clear `qrCodeData` and run the folder wipe. Returns the final globals and
the action trace. -/
def destroyClient (s : SessionState) (destroyThrows : Bool)
    (fexists rmFails : String → Bool) : SessionState × List DAct :=
  let destroyActs : Bool × List DAct :=
    if s.clientPresent then
      if destroyThrows then (true, [DAct.clientDestroy false])
      else (false, [DAct.clientDestroy true])
    else (false, [])
  (⟨destroyActs.1, "disconnected", none⟩,
   DAct.setStatus "disconnecting" :: destroyActs.2
     ++ [DAct.setStatus "disconnected"] ++ clearWhatsAppFolders fexists rmFails)

/-! ### Concrete oracle worlds used by counterexamples and witnesses -/

/-- Oracle world with an active session in which no number is registered and
no file exists. -/
def emptyWorld : World where
  clientPresent := true
  connectionStatus := "connected"
  isRegisteredUser := fun _ => false
  fs := { fexists := fun _ => false, fmime := fun _ => none, fsize := fun _ => 0 }
  sendTextResult := fun _ _ => none
  sendMediaResult := fun _ _ => none

/-- Oracle world with an active session, a valid 100-byte `img.png`, exactly
`222@c.us` registered, and all sends resolving. -/
def mixedWorld : World where
  clientPresent := true
  connectionStatus := "connected"
  isRegisteredUser := fun c => decide (c = "222@c.us")
  fs := { fexists := fun p => decide (p = "img.png")
          fmime := fun p => if p = "img.png" then some "image/png" else none
          fsize := fun _ => 100 }
  sendTextResult := fun _ _ => none
  sendMediaResult := fun _ _ => none

/-- Oracle world with an active session, a valid 100-byte `img.png`, exactly
the canonical Saudi number `966501234567@c.us` registered, and all sends
resolving. -/
def saWorld : World where
  clientPresent := true
  connectionStatus := "connected"
  isRegisteredUser := fun c => decide (c = "966501234567@c.us")
  fs := { fexists := fun p => decide (p = "img.png")
          fmime := fun p => if p = "img.png" then some "image/png" else none
          fsize := fun _ => 100 }
  sendTextResult := fun _ _ => none
  sendMediaResult := fun _ _ => none

/-- `saWorld` observed while the session is still initializing. -/
def saInitWorld : World :=
  { saWorld with connectionStatus := "initializing" }

/-! ### Claim theorems -/

/-- C7: `formatPhoneNumber` first strips every non-digit, then applies
exactly the per-country rewriting the claim describes — it agrees with the
spec-worded `specNormalize` on every input — and satisfies the two quoted
examples for country hint `SA`. -/
theorem c7_normalizer_refines_spec :
    (∀ rawNumber countryHint,
        formatPhoneNumber rawNumber countryHint = specNormalize rawNumber countryHint)
  ∧ formatPhoneNumber "0501234567" "SA" = "966501234567"
  ∧ formatPhoneNumber "966501234567" "SA" = "966501234567" :=
  ⟨fun _ _ => rfl, rfl, rfl⟩

/-- C1 fails on the code: with an active session and one unregistered
recipient, `POST /send-single-media` answers 500 carrying no results object
at all — the recipient appears in neither `success` nor `failed` — because
the loop's `catch` block reads the out-of-scope `const formattedNumber` and
raises a `ReferenceError`. The bulk handler on the same input does record
the recipient in `failed`, isolating the slip to the single-media handler. -/
theorem c1_partition_violated_in_single_media :
    sendSingleMedia emptyWorld ["123"] "img.png" "hi" "" =
      .serverError [.regCheck "123@c.us"]
  ∧ sendBulkMessages emptyWorld ["123"] none none "" =
      .ok ⟨[], [⟨"123", msgNotRegistered⟩]⟩ [.regCheck "123@c.us"] :=
  ⟨rfl, rfl⟩

/-- C2 fails on the code: in `POST /send-single-media` a per-recipient error
is not recorded in `failed` but aborts the whole batch. With `111`
unregistered and `222` registered with valid media, putting `111` first
aborts before `222` is ever processed, and putting `222` first still ends
in a 500 that discards its recorded success. -/
theorem c2_recipient_failure_aborts_batch :
    sendSingleMedia mixedWorld ["111", "222"] "img.png" "hi" "" =
      .serverError [.regCheck "111@c.us"]
  ∧ sendSingleMedia mixedWorld ["222", "111"] "img.png" "hi" "" =
      .serverError [.regCheck "222@c.us", .readFile "img.png",
                    .sendMedia "222@c.us" "img.png" false, .regCheck "111@c.us"] :=
  ⟨rfl, rfl⟩

/-- C4 fails on the code: with one registered (`0501234567`, canonical
`966501234567`) and one unregistered (`0509999999`) Saudi recipient, the
single-media call never yields `success=[registered]` /
`failed=[{unregistered, reason}]`: in either input order the unregistered
recipient's error hits the broken `catch` block and the call answers 500. -/
theorem c4_mixed_pair_yields_500 :
    sendSingleMedia saWorld ["0501234567", "0509999999"] "img.png" "hi" "SA" =
      .serverError [.regCheck "966501234567@c.us", .readFile "img.png",
                    .sendMedia "966501234567@c.us" "img.png" false,
                    .regCheck "966509999999@c.us"]
  ∧ sendSingleMedia saWorld ["0509999999", "0501234567"] "img.png" "hi" "SA" =
      .serverError [.regCheck "966509999999@c.us"] :=
  ⟨rfl, rfl⟩

/-- C3 fails on the code: the send handlers never consult
`connectionStatus`. With a client handle present but the session still in
state `initializing` (not `connected`), `POST /send-single-media` is not
rejected: it proceeds to the registration check and the media send and
answers 200. -/
theorem c3_counterexample_sends_while_not_connected :
    saInitWorld.connectionStatus = "initializing"
  ∧ sendSingleMedia saInitWorld ["0501234567"] "img.png" "hi" "SA" =
      .ok ⟨["966501234567"], []⟩
        [.regCheck "966501234567@c.us", .readFile "img.png",
         .sendMedia "966501234567@c.us" "img.png" false] :=
  ⟨rfl, rfl⟩

/-! ### The send handlers never read `connectionStatus` -/

theorem processSingleRecipient_status_irrelevant (w : World) (st mp c n : String) :
    processSingleRecipient { w with connectionStatus := st } mp c n
      = processSingleRecipient w mp c n := rfl

theorem sendSingleGo_status_irrelevant (w : World) (st mp c : String) (l : List String) :
    ∀ (acc : DispatchResults) (tr : List Event),
      sendSingleGo { w with connectionStatus := st } mp c l acc tr
        = sendSingleGo w mp c l acc tr := by
  induction l with
  | nil => intro acc tr; rfl
  | cons n rest ih =>
    intro acc tr
    show (match processSingleRecipient w mp c n with
          | (.success cn, evs) =>
            sendSingleGo { w with connectionStatus := st } mp c rest
              ⟨acc.success ++ [cn], acc.failed⟩ (tr ++ evs)
          | (.refError, evs) => .serverError (tr ++ evs))
        = sendSingleGo w mp c (n :: rest) acc tr
    rcases h : processSingleRecipient w mp c n with ⟨step, evs⟩
    cases step with
    | success cn => simp only [sendSingleGo, h, ih]
    | refError => simp only [sendSingleGo, h]

theorem textPhase_status_irrelevant (w : World) (st chatId : String)
    (message : Option String) :
    textPhase { w with connectionStatus := st } chatId message
      = textPhase w chatId message := rfl

theorem processMediaItem_status_irrelevant (w : World) (st chatId : String)
    (it : MediaItem) :
    processMediaItem { w with connectionStatus := st } chatId it
      = processMediaItem w chatId it := rfl

theorem processMediaList_status_irrelevant (w : World) (st chatId : String)
    (l : List MediaItem) :
    processMediaList { w with connectionStatus := st } chatId l
      = processMediaList w chatId l := by
  induction l with
  | nil => rfl
  | cons it rest ih =>
    simp only [processMediaList, processMediaItem_status_irrelevant, ih]

theorem processBulkRecipient_status_irrelevant (w : World) (st : String)
    (message : Option String) (mediaFiles : Option (List MediaItem)) (c n : String) :
    processBulkRecipient { w with connectionStatus := st } message mediaFiles c n
      = processBulkRecipient w message mediaFiles c n := by
  simp only [processBulkRecipient, textPhase_status_irrelevant,
    processMediaList_status_irrelevant]

theorem sendBulkGo_status_irrelevant (w : World) (st : String)
    (message : Option String) (mediaFiles : Option (List MediaItem)) (c : String)
    (l : List String) :
    sendBulkGo { w with connectionStatus := st } message mediaFiles c l
      = sendBulkGo w message mediaFiles c l := by
  induction l with
  | nil => rfl
  | cons n rest ih =>
    simp only [sendBulkGo, processBulkRecipient_status_irrelevant, ih]

/-- `emptyWorld` with the `client` global unset. -/
def offWorld : World :=
  { emptyWorld with clientPresent := false }

/-- C3 amended: the only session-related precondition of both send handlers
is that the `client` global is set — a call with no client handle is
rejected with HTTP 400 and performs no per-recipient work — and the
handlers never consult `connectionStatus`, so a call made in a
non-`connected` state with a client handle present is not rejected. -/
theorem c3_amended_precondition_is_client_presence (w : World)
    (numbers : List String) (mediaPath caption country : String)
    (message : Option String) (mediaFiles : Option (List MediaItem))
    (h : w.clientPresent = false) :
    sendSingleMedia w numbers mediaPath caption country = .badRequest msgNoClient
  ∧ sendBulkMessages w numbers message mediaFiles country = .badRequest msgNoClient
  ∧ (∀ st, sendSingleMedia { w with connectionStatus := st } numbers mediaPath caption country
        = sendSingleMedia w numbers mediaPath caption country)
  ∧ (∀ st, sendBulkMessages { w with connectionStatus := st } numbers message mediaFiles country
        = sendBulkMessages w numbers message mediaFiles country) := by
  refine ⟨?_, ?_, ?_, ?_⟩
  · simp [sendSingleMedia, h]
  · simp [sendBulkMessages, h]
  · intro st
    simp only [sendSingleMedia, sendSingleGo_status_irrelevant]
  · intro st
    simp only [sendBulkMessages, sendBulkGo_status_irrelevant]

/-- Witness for C3 amended: with the client handle unset, a concrete
single-media call is rejected with the 400 body. -/
theorem c3_amended_witness :
    sendSingleMedia offWorld ["123"] "img.png" "hi" "" = .badRequest msgNoClient :=
  (c3_amended_precondition_is_client_presence offWorld ["123"] "img.png" "hi" ""
    none none rfl).1

/-! ### C6: teardown -/

/-- Is a teardown action an `fs.rmSync` attempt? -/
def isRmAttempt : DAct → Bool
  | .rmAttempt _ _ => true
  | _ => false

/-- The `fs.rmSync` attempts of a teardown trace. -/
def rmActs (tr : List DAct) : List DAct :=
  tr.filter isRmAttempt

theorem clearWhatsAppFolders_all_rm (fexists rmFails : String → Bool) :
    ∀ a ∈ clearWhatsAppFolders fexists rmFails, isRmAttempt a = true := by
  intro a ha
  rcases List.mem_filterMap.mp ha with ⟨f, _, hfa⟩
  by_cases h : fexists f = true
  · simp only [h, if_true, Option.some.injEq] at hfa
    subst hfa
    rfl
  · simp only [Bool.not_eq_true] at h
    simp [h] at hfa

theorem mem_clearWhatsAppFolders (fexists rmFails : String → Bool) (f : String)
    (hf : f ∈ foldersToDelete) (he : fexists f = true) :
    DAct.rmAttempt f (!rmFails f) ∈ clearWhatsAppFolders fexists rmFails := by
  unfold clearWhatsAppFolders
  exact List.mem_filterMap.mpr ⟨f, hf, by simp [he]⟩

/-- A session with a live client handle, connected, holding a QR payload. -/
def qrState : SessionState :=
  ⟨true, "connected", some "QR"⟩

/-- Every folder exists. -/
def allFoldersExist : String → Bool := fun _ => true

/-- Deleting `.wwebjs_auth` throws; the other deletions succeed. -/
def rmFailsAuth : String → Bool := fun f => decide (f = ".wwebjs_auth")

/-- C6 fails on the code: when `client.destroy()` throws, the handle is NOT
cleared — `client = null` sits inside the `try` after the `await`, so the
throw skips it. Everything else the claim lists does happen: `qrCodeData`
is cleared, the state ends `disconnected`, and all three folders are
attempted even though deleting the middle one fails. -/
theorem c6_counterexample_handle_survives_throwing_destroy :
    (destroyClient qrState true allFoldersExist rmFailsAuth).1.clientPresent = true
  ∧ (destroyClient qrState true allFoldersExist rmFailsAuth).1.connectionStatus
      = "disconnected"
  ∧ (destroyClient qrState true allFoldersExist rmFailsAuth).1.qrCodeData = none
  ∧ (destroyClient qrState true allFoldersExist rmFailsAuth).2 =
      [.setStatus "disconnecting", .clientDestroy false, .setStatus "disconnected",
       .rmAttempt "uploads" true, .rmAttempt ".wwebjs_auth" false,
       .rmAttempt ".wwebjs_cache" true] := by
  refine ⟨rfl, rfl, rfl, rfl⟩

/-- C6 amended: `destroyClient` first sets state `disconnecting`, tolerates
a throwing `client.destroy()`, always clears `qrCodeData`, always ends in
state `disconnected`, and always attempts to wipe every existing target
folder even when the shutdown call throws or an earlier deletion fails;
the client handle, however, is cleared only when the shutdown call
succeeds (it survives a throwing `client.destroy()`). -/
theorem c6_amended_destroy_teardown (s : SessionState) (destroyThrows : Bool)
    (fexists rmFails : String → Bool) :
    (destroyClient s destroyThrows fexists rmFails).1.connectionStatus = "disconnected"
  ∧ (destroyClient s destroyThrows fexists rmFails).1.qrCodeData = none
  ∧ (destroyClient s destroyThrows fexists rmFails).1.clientPresent
      = (s.clientPresent && destroyThrows)
  ∧ (destroyClient s destroyThrows fexists rmFails).2.head?
      = some (.setStatus "disconnecting")
  ∧ rmActs (destroyClient s destroyThrows fexists rmFails).2
      = clearWhatsAppFolders fexists rmFails
  ∧ (∀ f ∈ foldersToDelete, fexists f = true →
      DAct.rmAttempt f (!rmFails f) ∈ (destroyClient s destroyThrows fexists rmFails).2) := by
  refine ⟨rfl, rfl, ?_, ?_, ?_, ?_⟩
  · cases hc : s.clientPresent <;> cases destroyThrows <;> simp [destroyClient, hc]
  · cases hc : s.clientPresent <;> cases destroyThrows <;> simp [destroyClient, hc]
  · cases hc : s.clientPresent <;> cases destroyThrows <;>
      simp [destroyClient, hc, rmActs, List.filter_cons, isRmAttempt] <;>
      exact fun a ha => clearWhatsAppFolders_all_rm fexists rmFails a ha
  · intro f hf he
    cases hc : s.clientPresent <;> cases destroyThrows <;>
      simp [destroyClient, hc] <;>
      exact mem_clearWhatsAppFolders fexists rmFails f hf he

/-- Witness for C6 amended: with a throwing shutdown and a failing
`.wwebjs_auth` deletion, the `.wwebjs_auth` wipe is still attempted. -/
theorem c6_amended_witness :
    DAct.rmAttempt ".wwebjs_auth" (!rmFailsAuth ".wwebjs_auth")
      ∈ (destroyClient qrState true allFoldersExist rmFailsAuth).2 :=
  (c6_amended_destroy_teardown qrState true allFoldersExist rmFailsAuth).2.2.2.2.2
    ".wwebjs_auth" (by decide) rfl

/-- C8: the media checks run in the fixed order of the source — a missing
path fails with the not-found message whatever the other oracles say; an
existing path with undeterminable MIME type fails with the unsupported-type
message even when oversized; an existing, typed file strictly larger than
16 MiB fails with the too-large message (and at exactly 16 MiB it passes);
and a failed resolution produces no read and no send: the bulk media item
yields no events and the single-media recipient only the registration
check. -/
theorem c8_media_check_order (fs : FsModel) (p : String) :
    (fs.fexists p = false → resolveMedia fs p = .error msgMediaNotFound)
  ∧ (fs.fexists p = true → fs.fmime p = none → resolveMedia fs p = .error msgUnsupported)
  ∧ (∀ m, fs.fexists p = true → fs.fmime p = some m → 16 * 1024 * 1024 < fs.fsize p →
      resolveMedia fs p = .error msgTooLarge)
  ∧ (∀ m, fs.fexists p = true → fs.fmime p = some m → fs.fsize p ≤ 16 * 1024 * 1024 →
      resolveMedia fs p = .ok m)
  ∧ (∀ (w : World) (chatId e : String) (it : MediaItem),
      resolveMedia w.fs it.path = .error e → processMediaItem w chatId it = (some e, []))
  ∧ (∀ (w : World) (country number e : String), w.fs = fs →
      w.isRegisteredUser (chatIdOf number country) = true →
      resolveMedia fs p = .error e →
      processSingleRecipient w p country number
        = (.refError, [.regCheck (chatIdOf number country)])) := by
  refine ⟨?_, ?_, ?_, ?_, ?_, ?_⟩
  · intro h; simp [resolveMedia, h]
  · intro h1 h2; simp [resolveMedia, h1, h2]
  · intro m h1 h2 h3; simp [resolveMedia, h1, h2, h3]
  · intro m h1 h2 h3
    simp [resolveMedia, h1, h2, Nat.not_lt.mpr h3]
  · intro w chatId e it h; simp [processMediaItem, h]
  · intro w country number e hfs hreg herr
    have herr2 : resolveMedia w.fs p = .error e := by rw [hfs]; exact herr
    simp only [processSingleRecipient, chatIdOf] at hreg ⊢
    simp [hreg, herr2]

/-- A 20 MiB PDF at `big.bin`. -/
def bigFs : FsModel where
  fexists := fun p => decide (p = "big.bin")
  fmime := fun p => if p = "big.bin" then some "application/pdf" else none
  fsize := fun _ => 20 * 1024 * 1024

/-- Witness for C8: a 20 MiB file resolves to the too-large error. -/
theorem c8_witness : resolveMedia bigFs "big.bin" = .error msgTooLarge :=
  (c8_media_check_order bigFs "big.bin").2.2.1 "application/pdf" rfl rfl (by decide)

/-- C10: in the bulk handler a registered recipient with no text message
and an absent or empty `mediaFiles` list lands in `success` after the
registration check alone — its trace holds exactly the registration query,
no send and no read — and a singleton batch answers 200 accordingly. -/
theorem c10_registered_recipient_with_no_payload (w : World)
    (country number : String) (mediaFiles : Option (List MediaItem))
    (hreg : w.isRegisteredUser (chatIdOf number country) = true)
    (hmf : mediaFiles = none ∨ mediaFiles = some []) :
    processBulkRecipient w none mediaFiles country number
      = (.inl (formatPhoneNumber number country), [.regCheck (chatIdOf number country)])
  ∧ (w.clientPresent = true →
      sendBulkMessages w [number] none mediaFiles country
        = .ok ⟨[formatPhoneNumber number country], []⟩
            [.regCheck (chatIdOf number country)]) := by
  have h1 : processBulkRecipient w none mediaFiles country number
      = (.inl (formatPhoneNumber number country), [.regCheck (chatIdOf number country)]) := by
    simp only [processBulkRecipient, chatIdOf] at hreg ⊢
    rcases hmf with h | h <;> subst h <;> simp [hreg, textPhase]
  refine ⟨h1, fun hc => ?_⟩
  simp [sendBulkMessages, sendBulkGo, hc, h1]

/-- Witness for C10: a registered Saudi number with no message and no media
list is recorded as succeeded with only its registration check. -/
theorem c10_witness :
    processBulkRecipient saWorld none none "SA" "0501234567"
      = (.inl (formatPhoneNumber "0501234567" "SA"),
         [.regCheck (chatIdOf "0501234567" "SA")]) :=
  (c10_registered_recipient_with_no_payload saWorld "SA" "0501234567" none
    (by decide) (Or.inl rfl)).1

/-! ### C5: media-failure isolation in the bulk handler -/

theorem processMediaList_append_ok (w : World) (chatId : String) (pre : List MediaItem) :
    ∀ l : List MediaItem, (∀ it ∈ pre, (processMediaItem w chatId it).1 = none) →
    processMediaList w chatId (pre ++ l)
      = ((processMediaList w chatId l).1,
         (processMediaList w chatId pre).2 ++ (processMediaList w chatId l).2) := by
  induction pre with
  | nil => intro l _; simp [processMediaList]
  | cons it rest ih =>
    intro l hpre
    rcases hp : processMediaItem w chatId it with ⟨e, evs⟩
    have h1 : e = none := by
      have h2 := hpre it (by simp)
      rw [hp] at h2; exact h2
    subst h1
    have ihh := ih l (fun x hx => hpre x (by simp [hx]))
    simp only [List.cons_append, processMediaList, hp, List.append_eq]
    rw [ihh]
    simp [List.append_assoc]

theorem processMediaList_cons_err (w : World) (chatId e : String) (bad : MediaItem)
    (post : List MediaItem)
    (hbad : (processMediaItem w chatId bad).1 = some e) :
    processMediaList w chatId (bad :: post)
      = (some (wrapMediaFailure e), (processMediaItem w chatId bad).2) := by
  rcases hp : processMediaItem w chatId bad with ⟨e2, evs⟩
  rw [hp] at hbad
  simp only at hbad
  subst hbad
  simp [processMediaList, hp]

theorem touchesPath_processMediaItem (w : World) (chatId q : String) (it : MediaItem)
    (hne : it.path ≠ q) :
    ∀ ev ∈ (processMediaItem w chatId it).2, touchesPath q ev = false := by
  intro ev hev
  unfold processMediaItem at hev
  rcases h : resolveMedia w.fs it.path with e | m <;> rw [h] at hev
  · simp at hev
  · simp only at hev
    rcases List.mem_cons.mp hev with h1 | h1
    · subst h1; simp [touchesPath, hne]
    · rcases List.mem_cons.mp h1 with h2 | h2
      · subst h2; simp [touchesPath, hne]
      · simp at h2

theorem touchesPath_processMediaList (w : World) (chatId q : String) :
    ∀ l : List MediaItem, (∀ it ∈ l, it.path ≠ q) →
      ∀ ev ∈ (processMediaList w chatId l).2, touchesPath q ev = false := by
  intro l
  induction l with
  | nil => intro _ ev hev; simp [processMediaList] at hev
  | cons it rest ih =>
    intro hl ev hev
    have hit : it.path ≠ q := hl it (by simp)
    rcases hp : processMediaItem w chatId it with ⟨e, evs⟩
    have hevs : ∀ x ∈ evs, touchesPath q x = false := fun x hx =>
      touchesPath_processMediaItem w chatId q it hit x (by rw [hp]; exact hx)
    rcases hr : processMediaList w chatId rest with ⟨r2, evs2⟩
    cases e with
    | some r =>
      simp only [processMediaList, hp] at hev
      exact hevs ev hev
    | none =>
      simp only [processMediaList, hp, hr] at hev
      rcases List.mem_append.mp hev with h1 | h1
      · exact hevs ev h1
      · exact ih (fun x hx => hl x (by simp [hx])) ev (by rw [hr]; exact h1)

theorem touchesPath_textPhase (w : World) (chatId q : String) (message : Option String) :
    ∀ ev ∈ (textPhase w chatId message).2, touchesPath q ev = false := by
  intro ev hev
  cases message with
  | none => simp [textPhase] at hev
  | some m =>
    by_cases h : m = ""
    · simp [textPhase, h] at hev
    · simp [textPhase, h] at hev
      subst hev; rfl

theorem c5_core (w : World) (message : Option String) (country number e : String)
    (pre post : List MediaItem) (bad : MediaItem)
    (hreg : w.isRegisteredUser (chatIdOf number country) = true)
    (htext : (textPhase w (chatIdOf number country) message).1 = none)
    (hpre : ∀ it ∈ pre, (processMediaItem w (chatIdOf number country) it).1 = none)
    (hbad : (processMediaItem w (chatIdOf number country) bad).1 = some e) :
    processBulkRecipient w message (some (pre ++ bad :: post)) country number
      = (.inr ⟨jsStringOr (formatPhoneNumber number country) number, wrapMediaFailure e⟩,
         .regCheck (chatIdOf number country)
           :: ((textPhase w (chatIdOf number country) message).2
               ++ ((processMediaList w (chatIdOf number country) pre).2
                   ++ (processMediaItem w (chatIdOf number country) bad).2))) := by
  have hml : processMediaList w (chatIdOf number country) (pre ++ bad :: post)
      = (some (wrapMediaFailure e),
         (processMediaList w (chatIdOf number country) pre).2
           ++ (processMediaItem w (chatIdOf number country) bad).2) := by
    rw [processMediaList_append_ok w (chatIdOf number country) pre (bad :: post) hpre,
        processMediaList_cons_err w (chatIdOf number country) e bad post hbad]
  have hne : (pre ++ bad :: post).isEmpty = false := by cases pre <;> rfl
  rcases ht : textPhase w (chatIdOf number country) message with ⟨tr, tevs⟩
  have htr : tr = none := by rw [ht] at htext; exact htext
  subst htr
  simp only [chatIdOf] at hreg ht hml
  simp only [processBulkRecipient, hreg, if_true, ht, hne, hml, chatIdOf]
  simp

/-- C5: in the bulk handler, a registered recipient whose media sequence
`pre ++ bad :: post` fails first at `bad` (after a successful text phase
and all of `pre` succeeding) is recorded exactly once in `failed`, with the
wrapped reason; its trace stops at `bad` — it is the registration check,
the text events, and the events of `pre` and `bad` only, touching no path
outside them, so no later media item is attempted; and the loop continues
with the remaining recipients, whose results are unchanged. -/
theorem c5_bulk_media_failure_isolation (w : World) (message : Option String)
    (country number e : String) (pre post : List MediaItem) (bad : MediaItem)
    (rest : List String)
    (hreg : w.isRegisteredUser (chatIdOf number country) = true)
    (htext : (textPhase w (chatIdOf number country) message).1 = none)
    (hpre : ∀ it ∈ pre, (processMediaItem w (chatIdOf number country) it).1 = none)
    (hbad : (processMediaItem w (chatIdOf number country) bad).1 = some e) :
    (processBulkRecipient w message (some (pre ++ bad :: post)) country number).1
      = .inr ⟨jsStringOr (formatPhoneNumber number country) number, wrapMediaFailure e⟩
  ∧ (processBulkRecipient w message (some (pre ++ bad :: post)) country number).2
      = .regCheck (chatIdOf number country)
          :: ((textPhase w (chatIdOf number country) message).2
              ++ ((processMediaList w (chatIdOf number country) pre).2
                  ++ (processMediaItem w (chatIdOf number country) bad).2))
  ∧ (∀ q, (∀ it ∈ pre, it.path ≠ q) → bad.path ≠ q →
      ∀ ev ∈ (processBulkRecipient w message (some (pre ++ bad :: post)) country number).2,
        touchesPath q ev = false)
  ∧ (sendBulkGo w message (some (pre ++ bad :: post)) country (number :: rest)).1.success
      = (sendBulkGo w message (some (pre ++ bad :: post)) country rest).1.success
  ∧ (sendBulkGo w message (some (pre ++ bad :: post)) country (number :: rest)).1.failed
      = ⟨jsStringOr (formatPhoneNumber number country) number, wrapMediaFailure e⟩
          :: (sendBulkGo w message (some (pre ++ bad :: post)) country rest).1.failed := by
  have core := c5_core w message country number e pre post bad hreg htext hpre hbad
  refine ⟨by rw [core], by rw [core], ?_, ?_, ?_⟩
  · intro q hq hbq ev hev
    rw [core] at hev
    simp only [List.mem_cons, List.mem_append] at hev
    rcases hev with h | (h | (h | h))
    · subst h; rfl
    · exact touchesPath_textPhase w (chatIdOf number country) q message ev h
    · exact touchesPath_processMediaList w (chatIdOf number country) q pre hq ev h
    · exact touchesPath_processMediaItem w (chatIdOf number country) q bad hbq ev h
  · simp only [sendBulkGo, core]
  · simp only [sendBulkGo, core]

/-- Oracle world for the bulk scenarios: `5@c.us` and `6@c.us` registered,
valid 100-byte PNGs at `a.png` and `b.png`, nothing at `missing.png`, all
sends resolving. -/
def bulkWorld : World where
  clientPresent := true
  connectionStatus := "connected"
  isRegisteredUser := fun c => decide (c = "5@c.us") || decide (c = "6@c.us")
  fs := { fexists := fun p => decide (p = "a.png") || decide (p = "b.png")
          fmime := fun p => if p = "a.png" || p = "b.png" then some "image/png" else none
          fsize := fun _ => 100 }
  sendTextResult := fun _ _ => none
  sendMediaResult := fun _ _ => none

/-- Witness for C5: the second of three media items is missing, so the
recipient is recorded as failed with the wrapped not-found reason. -/
theorem c5_witness :
    (processBulkRecipient bulkWorld none
        (some [⟨"a.png", "c1"⟩, ⟨"missing.png", "c2"⟩, ⟨"b.png", "c3"⟩]) "" "5").1
      = .inr ⟨jsStringOr (formatPhoneNumber "5" "") "5", wrapMediaFailure msgMediaNotFound⟩ :=
  (c5_bulk_media_failure_isolation bulkWorld none "" "5" msgMediaNotFound
    [⟨"a.png", "c1"⟩] [⟨"b.png", "c3"⟩] ⟨"missing.png", "c2"⟩ ["6"]
    (by decide) rfl (by decide) (by decide)).1

/-! ### C9: the video-as-document rule -/

/-- The video-as-document rule for one event: if it is a media send, its
`sendMediaAsDocument` flag matches whether the file's MIME type starts
with `video/`. -/
def videoFlagOk (w : World) (ev : Event) : Prop :=
  ∀ c p b, ev = .sendMedia c p b →
    ∃ m, w.fs.fmime p = some m ∧ b = strStartsWith m "video/"

theorem resolveMedia_ok_mime (fs : FsModel) (p m : String)
    (h : resolveMedia fs p = .ok m) : fs.fmime p = some m := by
  by_cases he : fs.fexists p = true
  · rcases hm : fs.fmime p with _ | mt
    · simp [resolveMedia, he, hm] at h
    · by_cases hs : 16 * 1024 * 1024 < fs.fsize p
      · simp [resolveMedia, he, hm, hs] at h
      · simp [resolveMedia, he, hm, hs] at h
        subst h
        rfl
  · simp only [Bool.not_eq_true] at he
    simp [resolveMedia, he] at h

theorem videoFlagOk_processMediaItem (w : World) (chatId : String) (it : MediaItem) :
    ∀ ev ∈ (processMediaItem w chatId it).2, videoFlagOk w ev := by
  intro ev hev
  unfold processMediaItem at hev
  rcases h : resolveMedia w.fs it.path with e | m <;> rw [h] at hev
  · simp at hev
  · simp only at hev
    rcases List.mem_cons.mp hev with h1 | h1
    · subst h1; intro c p b heq; cases heq
    · rcases List.mem_cons.mp h1 with h2 | h2
      · subst h2
        intro c p b heq
        injection heq with hc hp hb
        subst hp; subst hb
        exact ⟨m, resolveMedia_ok_mime w.fs it.path m h, rfl⟩
      · simp at h2

theorem videoFlagOk_processMediaList (w : World) (chatId : String) :
    ∀ l : List MediaItem, ∀ ev ∈ (processMediaList w chatId l).2, videoFlagOk w ev := by
  intro l
  induction l with
  | nil => intro ev hev; simp [processMediaList] at hev
  | cons it rest ih =>
    intro ev hev
    rcases hp : processMediaItem w chatId it with ⟨e, evs⟩
    have hevs : ∀ x ∈ evs, videoFlagOk w x := fun x hx =>
      videoFlagOk_processMediaItem w chatId it x (by rw [hp]; exact hx)
    rcases hr : processMediaList w chatId rest with ⟨r2, evs2⟩
    cases e with
    | some r =>
      simp only [processMediaList, hp] at hev
      exact hevs ev hev
    | none =>
      simp only [processMediaList, hp, hr] at hev
      rcases List.mem_append.mp hev with h1 | h1
      · exact hevs ev h1
      · exact ih ev (by rw [hr]; exact h1)

theorem videoFlagOk_textPhase (w : World) (chatId : String) (message : Option String) :
    ∀ ev ∈ (textPhase w chatId message).2, videoFlagOk w ev := by
  intro ev hev
  cases message with
  | none => simp [textPhase] at hev
  | some m =>
    by_cases h : m = ""
    · simp [textPhase, h] at hev
    · simp [textPhase, h] at hev
      subst hev
      intro c p b heq; cases heq

theorem videoFlagOk_processBulkRecipient (w : World) (message : Option String)
    (mediaFiles : Option (List MediaItem)) (country number : String) :
    ∀ ev ∈ (processBulkRecipient w message mediaFiles country number).2,
      videoFlagOk w ev := by
  intro ev hev
  by_cases hreg : w.isRegisteredUser (formatPhoneNumber number country ++ "@c.us") = true
  · rcases ht : textPhase w (formatPhoneNumber number country ++ "@c.us") message
      with ⟨tr, tevs⟩
    have htevs : ∀ x ∈ tevs, videoFlagOk w x := fun x hx =>
      videoFlagOk_textPhase w (formatPhoneNumber number country ++ "@c.us") message x
        (by rw [ht]; exact hx)
    cases tr with
    | some r =>
      simp only [processBulkRecipient, hreg, if_true, ht] at hev
      rcases List.mem_cons.mp hev with h1 | h1
      · subst h1; intro c p b heq; cases heq
      · exact htevs ev h1
    | none =>
      cases mediaFiles with
      | none =>
        simp only [processBulkRecipient, hreg, if_true, ht] at hev
        rcases List.mem_cons.mp hev with h1 | h1
        · subst h1; intro c p b heq; cases heq
        · exact htevs ev h1
      | some l =>
        by_cases hl : l.isEmpty = true
        · simp only [processBulkRecipient, hreg, if_true, ht, hl] at hev
          rcases List.mem_cons.mp hev with h1 | h1
          · subst h1; intro c p b heq; cases heq
          · exact htevs ev h1
        · simp only [Bool.not_eq_true] at hl
          rcases hm : processMediaList w (formatPhoneNumber number country ++ "@c.us") l
            with ⟨r, mevs⟩
          have hmevs : ∀ x ∈ mevs, videoFlagOk w x := fun x hx =>
            videoFlagOk_processMediaList w (formatPhoneNumber number country ++ "@c.us") l x
              (by rw [hm]; exact hx)
          cases r with
          | some r2 =>
            simp only [processBulkRecipient, hreg, if_true, ht, hl, hm] at hev
            rcases List.mem_cons.mp hev with h1 | h1
            · subst h1; intro c p b heq; cases heq
            · rcases List.mem_append.mp h1 with h2 | h2
              · exact htevs ev h2
              · exact hmevs ev h2
          | none =>
            simp only [processBulkRecipient, hreg, if_true, ht, hl, hm] at hev
            rcases List.mem_cons.mp hev with h1 | h1
            · subst h1; intro c p b heq; cases heq
            · rcases List.mem_append.mp h1 with h2 | h2
              · exact htevs ev h2
              · exact hmevs ev h2
  · simp only [Bool.not_eq_true] at hreg
    simp only [processBulkRecipient, hreg] at hev
    simp only [Bool.false_eq_true, if_false, List.mem_singleton] at hev
    subst hev
    intro c p b heq; cases heq

theorem videoFlagOk_sendBulkGo (w : World) (message : Option String)
    (mediaFiles : Option (List MediaItem)) (country : String) :
    ∀ l : List String, ∀ ev ∈ (sendBulkGo w message mediaFiles country l).2,
      videoFlagOk w ev := by
  intro l
  induction l with
  | nil => intro ev hev; simp [sendBulkGo] at hev
  | cons n rest ih =>
    intro ev hev
    rcases hp : processBulkRecipient w message mediaFiles country n with ⟨o, evs⟩
    rcases hg : sendBulkGo w message mediaFiles country rest with ⟨acc, tr⟩
    have hevs : ∀ x ∈ evs, videoFlagOk w x := fun x hx =>
      videoFlagOk_processBulkRecipient w message mediaFiles country n x
        (by rw [hp]; exact hx)
    have htr : ∀ x ∈ tr, videoFlagOk w x := fun x hx => ih x (by rw [hg]; exact hx)
    cases o with
    | inl cn =>
      simp only [sendBulkGo, hp, hg] at hev
      rcases List.mem_append.mp hev with h1 | h1
      · exact hevs ev h1
      · exact htr ev h1
    | inr f =>
      simp only [sendBulkGo, hp, hg] at hev
      rcases List.mem_append.mp hev with h1 | h1
      · exact hevs ev h1
      · exact htr ev h1

theorem videoFlagOk_processSingleRecipient (w : World) (mediaPath country number : String) :
    ∀ ev ∈ (processSingleRecipient w mediaPath country number).2, videoFlagOk w ev := by
  intro ev hev
  by_cases hreg : w.isRegisteredUser (formatPhoneNumber number country ++ "@c.us") = true
  · rcases h : resolveMedia w.fs mediaPath with e | m
    · simp only [processSingleRecipient, hreg, if_true, h, List.mem_singleton] at hev
      subst hev
      intro c p b heq; cases heq
    · rcases hs : w.sendMediaResult (formatPhoneNumber number country ++ "@c.us") mediaPath
        with _ | r
      all_goals
        simp only [processSingleRecipient, hreg, if_true, h, hs] at hev
      all_goals
        rcases List.mem_cons.mp hev with h1 | h1
        · subst h1; intro c p b heq; cases heq
        · rcases List.mem_cons.mp h1 with h2 | h2
          · subst h2
            intro c p b heq; cases heq
          · rcases List.mem_cons.mp h2 with h3 | h3
            · subst h3
              intro c p b heq
              injection heq with hc hp hb
              subst hp; subst hb
              exact ⟨m, resolveMedia_ok_mime w.fs mediaPath m h, rfl⟩
            · simp at h3
  · simp only [Bool.not_eq_true] at hreg
    simp only [processSingleRecipient, hreg] at hev
    simp only [Bool.false_eq_true, if_false, List.mem_singleton] at hev
    subst hev
    intro c p b heq; cases heq

theorem videoFlagOk_sendSingleGo (w : World) (mediaPath country : String) :
    ∀ (l : List String) (acc : DispatchResults) (tr : List Event),
      (∀ x ∈ tr, videoFlagOk w x) →
      ∀ ev ∈ traceOf (sendSingleGo w mediaPath country l acc tr), videoFlagOk w ev := by
  intro l
  induction l with
  | nil => intro acc tr htr ev hev; exact htr ev hev
  | cons n rest ih =>
    intro acc tr htr ev hev
    rcases hp : processSingleRecipient w mediaPath country n with ⟨step, evs⟩
    have hevs : ∀ x ∈ tr ++ evs, videoFlagOk w x := by
      intro x hx
      rcases List.mem_append.mp hx with h1 | h1
      · exact htr x h1
      · exact videoFlagOk_processSingleRecipient w mediaPath country n x
          (by rw [hp]; exact h1)
    cases step with
    | success cn =>
      simp only [sendSingleGo, hp] at hev
      exact ih ⟨acc.success ++ [cn], acc.failed⟩ (tr ++ evs) hevs ev hev
    | refError =>
      simp only [sendSingleGo, hp, traceOf] at hev
      exact hevs ev hev

/-- C9: in both handlers, every media send event carries the
`sendMediaAsDocument` flag set exactly when the resolved MIME type of the
sent file starts with `video/`. -/
theorem c9_video_document_rule (w : World) (numbers : List String)
    (mediaPath caption country : String) (message : Option String)
    (mediaFiles : Option (List MediaItem)) (c p : String) (b : Bool) :
    (Event.sendMedia c p b ∈ traceOf (sendSingleMedia w numbers mediaPath caption country) →
      ∃ m, w.fs.fmime p = some m ∧ b = strStartsWith m "video/")
  ∧ (Event.sendMedia c p b ∈ traceOf (sendBulkMessages w numbers message mediaFiles country) →
      ∃ m, w.fs.fmime p = some m ∧ b = strStartsWith m "video/") := by
  constructor
  · intro hev
    by_cases hc : w.clientPresent = true
    · by_cases hn : numbers.isEmpty = true
      · simp [sendSingleMedia, hc, hn, traceOf] at hev
      · simp only [Bool.not_eq_true] at hn
        simp only [sendSingleMedia, hc, hn, Bool.not_true, Bool.false_eq_true,
          if_false] at hev
        exact videoFlagOk_sendSingleGo w mediaPath country numbers ⟨[], []⟩ []
          (by simp) _ hev c p b rfl
    · simp only [Bool.not_eq_true] at hc
      simp [sendSingleMedia, hc, traceOf] at hev
  · intro hev
    by_cases hc : w.clientPresent = true
    · by_cases hn : numbers.isEmpty = true
      · simp [sendBulkMessages, hc, hn, traceOf] at hev
      · simp only [Bool.not_eq_true] at hn
        rcases hg : sendBulkGo w message mediaFiles country numbers with ⟨res, tr⟩
        simp only [sendBulkMessages, hc, hn, Bool.not_true, Bool.false_eq_true,
          if_false, hg, traceOf] at hev
        exact videoFlagOk_sendBulkGo w message mediaFiles country numbers _
          (by rw [hg]; exact hev) c p b rfl
    · simp only [Bool.not_eq_true] at hc
      simp [sendBulkMessages, hc, traceOf] at hev

/-- Oracle world with a registered `7@c.us` and a 100-byte `video/mp4`
file at `v.mp4`. -/
def videoWorld : World where
  clientPresent := true
  connectionStatus := "connected"
  isRegisteredUser := fun c => decide (c = "7@c.us")
  fs := { fexists := fun p => decide (p = "v.mp4")
          fmime := fun p => if p = "v.mp4" then some "video/mp4" else none
          fsize := fun _ => 100 }
  sendTextResult := fun _ _ => none
  sendMediaResult := fun _ _ => none

/-- Witness for C9: the single-media send of `v.mp4` occurs with the
document flag true, and the rule explains it. -/
theorem c9_witness :
    ∃ m, videoWorld.fs.fmime "v.mp4" = some m ∧ true = strStartsWith m "video/" :=
  (c9_video_document_rule videoWorld ["7"] "v.mp4" "cap" "" none none
    "7@c.us" "v.mp4" true).1 (by decide)
